import Mathlib

/-
  Verification of the mini-judge command-line script (cmd_script.py).

  The script compiles a single submitted solution file, runs it against a
  directory of test-case fixtures, and reports an AC/WA verdict per case.
  This file gives a shallow embedding of its data model and operations:
  pure string/line manipulation becomes Lean functions on `String` and
  `List String`; filesystem state becomes explicit record passing; fallible
  constructors (which raise exceptions in Python) return `Except`;
  subprocess spawns are recorded as events in an explicit trace.
-/

set_option autoImplicit false

/-- Verdict of one test case: the Python code returns the strings
"AC" (accepted) or "WA" (wrong answer) from `check_output`. -/
inductive Verdict where
  | AC
  | WA
  deriving DecidableEq, Repr

/-- The exception taxonomy of the script: every subclass of
`CustomException` defined in cmd_script.py becomes one constructor.
`FixtureNotFound` is named only by the specification (section 4.2); the
code never defines or raises it. It is included so that statements about
the spec's wording can be expressed; the theorems show the code raises
`TCNotFound` instead. -/
inductive CustomException where
  | SubmissionFileNotFound (filename : String)
  | TCNotFound (tc_dirname : String)
  | InvalidSubmissionFile (msg : String)
  | InvalidStrategy (msg : String)
  | CheckerNotFound
  | FixtureNotFound (name : String)
  deriving DecidableEq, Repr

/-- Python `s.rstrip` with the two line-terminator characters strips any
trailing run made of carriage returns and newlines, in any order. -/
def rstripCRLF (s : String) : String :=
  String.mk ((s.data.reverse.dropWhile (fun c => c == '\r' || c == '\n')).reverse)

/-- `LineCompareCheckStrategy.check_output`: iterate over the lines of the
expected-output file; for each, `readline()` the next captured line (which
is `""` once the captured file is exhausted), strip terminators from both,
and compare. First mismatch breaks with WA; exhausting the expected lines
yields AC. The captured file object is modelled as the list of lines not
yet read: `readline` is `headD ""` followed by `tail`. -/
def LineCompareCheckStrategy.check_output : List String → List String → Verdict
  | [], _ => Verdict.AC
  | line :: rest, user =>
    if rstripCRLF (user.headD "") = rstripCRLF line then
      LineCompareCheckStrategy.check_output rest user.tail
    else Verdict.WA

theorem headD_empty_getD_zero (u : List String) : u.headD "" = u.getD 0 "" := by
  cases u <;> rfl

theorem tail_getD_empty (u : List String) (i : Nat) :
    u.tail.getD i "" = u.getD (i + 1) "" := by
  cases u <;> rfl

/-- Characterisation of the line-compare loop: it accepts exactly when, at
every index of the expected file, the stripped captured line read at that
index (the empty string past end of file) equals the stripped expected
line. -/
theorem check_output_eq_AC_iff : ∀ (exp user : List String),
    LineCompareCheckStrategy.check_output exp user = Verdict.AC ↔
      ∀ i, i < exp.length →
        rstripCRLF (user.getD i "") = rstripCRLF (exp.getD i "") := by
  intro exp
  induction exp with
  | nil =>
    intro user
    constructor
    · intro _ i hi
      exact absurd hi (Nat.not_lt_zero i)
    · intro _
      rfl
  | cons e es ih =>
    intro user
    unfold LineCompareCheckStrategy.check_output
    by_cases h : rstripCRLF (user.headD "") = rstripCRLF e
    · rw [if_pos h]
      constructor
      · intro hac i hi
        cases i with
        | zero =>
          rw [← headD_empty_getD_zero]
          exact h
        | succ j =>
          have hj : j < es.length := Nat.lt_of_succ_lt_succ hi
          have hstep := (ih user.tail).mp hac j hj
          rwa [tail_getD_empty] at hstep
      · intro hall
        apply (ih user.tail).mpr
        intro j hj
        rw [tail_getD_empty]
        exact hall (j + 1) (Nat.succ_lt_succ hj)
    · rw [if_neg h]
      constructor
      · intro hwa
        exact absurd hwa (by simp)
      · intro hall
        exact absurd (by rw [headD_empty_getD_zero]; exact hall 0 (Nat.succ_pos _)) h

/-- `ArgumentConfig`: the CLI configuration dataclass with the default
values the script declares. `filename` and `test_cases` are consumed by
the out-of-scope CLI/import collaborators and are omitted. -/
structure ArgumentConfig where
  input_strat : String := "automatic"
  check_strat : String := "line"
  checker_name : String := "checker.py"
  input_filename : String := "input.in"
  output_filename : String := "input.ans"
  deriving DecidableEq, Repr

/-- The observable contents and run outcomes of one discovered test-case
directory: whether each fixture file is present, the lines of the expected
output file, the lines the submission writes when executed against the
case's input, and the exit code of the external checker process when one
is spawned for this case. -/
structure CaseDir where
  has_input : Bool
  has_expected : Bool
  expected_lines : List String
  user_lines : List String
  checker_exit_code : Int
  deriving DecidableEq, Repr

/-- The two input-delivery strategies of the factory in
`get_input_strategy`. -/
inductive InputStrategyKind where
  | automatic
  | manual
  deriving DecidableEq, Repr

/-- The two verification strategies of the factory in
`get_check_solution_strategy`. -/
inductive CheckStrategyKind where
  | line
  | checker
  deriving DecidableEq, Repr

/-- The two compiling strategies of the factory in
`get_compiling_strategy`. -/
inductive CompilingStrategyKind where
  | cpp
  | java
  deriving DecidableEq, Repr

/-- A subprocess spawn recorded by the engine: the single compile call,
the execution of the submission for one test case, or the external
checker invocation for one test case. -/
inductive Event where
  | compileProc (command : String)
  | executeProc (tc_dir : String)
  | checkerProc (tc_dir : String)
  deriving DecidableEq, Repr

/-- `InputStrategy.__init__`: builds the input/user-output paths and
raises `TCNotFound` (named after the case directory) when the input
fixture file does not exist. -/
def InputStrategy.init_check (tc_dir : String) (env : CaseDir) :
    Except CustomException Unit :=
  if env.has_input then Except.ok () else Except.error (CustomException.TCNotFound tc_dir)

/-- `get_input_strategy`: factory lookup on `input_strat` (unknown key
raises `InvalidStrategy`), then the chosen constructor runs
`InputStrategy.__init__`, which checks the input fixture. -/
def get_input_strategy (cfg : ArgumentConfig) (tc_dir : String) (env : CaseDir) :
    Except CustomException InputStrategyKind :=
  if cfg.input_strat = "automatic" then
    (InputStrategy.init_check tc_dir env).map (fun _ => InputStrategyKind.automatic)
  else if cfg.input_strat = "manual" then
    (InputStrategy.init_check tc_dir env).map (fun _ => InputStrategyKind.manual)
  else
    Except.error (CustomException.InvalidStrategy
      ("Input strategy " ++ cfg.input_strat ++ " not supported"))

/-- `CheckSolutionStrategy.__init__`: builds the user/expected output
paths and raises `TCNotFound` when the expected-output fixture file does
not exist. -/
def CheckSolutionStrategy.init_check (tc_dir : String) (env : CaseDir) :
    Except CustomException Unit :=
  if env.has_expected then Except.ok () else Except.error (CustomException.TCNotFound tc_dir)

/-- `get_check_solution_strategy`: factory lookup on `check_strat`
(unknown key raises `InvalidStrategy`), then the chosen constructor runs
`CheckSolutionStrategy.__init__`, which checks the expected-output
fixture. -/
def get_check_solution_strategy (cfg : ArgumentConfig) (tc_dir : String) (env : CaseDir) :
    Except CustomException CheckStrategyKind :=
  if cfg.check_strat = "line" then
    (CheckSolutionStrategy.init_check tc_dir env).map (fun _ => CheckStrategyKind.line)
  else if cfg.check_strat = "checker" then
    (CheckSolutionStrategy.init_check tc_dir env).map (fun _ => CheckStrategyKind.checker)
  else
    Except.error (CustomException.InvalidStrategy "Check Solution Strategy not found")

/-- `CheckerCompareCheckStrategy.check_output` maps the checker process
exit code to a verdict: 0 becomes AC, any other exit code becomes WA. The
spawn of the checker process itself (`run_checker`) is recorded by
`CheckSolutionStrategy.check_output` below. -/
def CheckerCompareCheckStrategy.check_output (checker_exit_code : Int) : Verdict :=
  if checker_exit_code = 0 then Verdict.AC else Verdict.WA

/-- `CheckerCompareCheckStrategy.setup_strategy` raises `CheckerNotFound`
when the checker file is absent from the working directory. In the source
this method is dead code: unlike the line-compare strategy, whose
`check_output` calls `setup_strategy()` first, the checker strategy's
`check_output` goes straight to `run_checker` and never calls it. -/
def CheckerCompareCheckStrategy.setup_strategy (checker_file_exists : Bool) :
    Except CustomException Unit :=
  if checker_file_exists then Except.ok () else Except.error CustomException.CheckerNotFound

/-- Dispatch of `check_output` over the selected verification strategy,
returning the subprocess events it spawns together with the verdict. The
line strategy spawns nothing and compares the files line by line; the
checker strategy spawns the checker process (without ever consulting
whether the checker file exists) and maps its exit code. -/
def CheckSolutionStrategy.check_output (ck : CheckStrategyKind) (tc_dir : String)
    (env : CaseDir) : List Event × Verdict :=
  match ck with
  | CheckStrategyKind.line =>
    ([], LineCompareCheckStrategy.check_output env.expected_lines env.user_lines)
  | CheckStrategyKind.checker =>
    ([Event.checkerProc tc_dir], CheckerCompareCheckStrategy.check_output env.checker_exit_code)

/-- `check_tc`: run the submission under the input strategy (one child
process, which both delivery strategies spawn exactly once and wait for),
then judge the captured output with the verification strategy. -/
def check_tc (ik : InputStrategyKind) (ck : CheckStrategyKind) (tc_dir : String)
    (env : CaseDir) : List Event × Verdict :=
  match ik with
  | InputStrategyKind.automatic =>
    let checked := CheckSolutionStrategy.check_output ck tc_dir env
    (Event.executeProc tc_dir :: checked.1, checked.2)
  | InputStrategyKind.manual =>
    let checked := CheckSolutionStrategy.check_output ck tc_dir env
    (Event.executeProc tc_dir :: checked.1, checked.2)

/-- The body of `evaluate_submission`'s loop for one directory: construct
the input strategy, then the verification strategy (Python evaluates
`check_tc`'s arguments left to right), and only then run `check_tc`. A
raised exception propagates with no subprocess spawned for the case. -/
def judge_case (cfg : ArgumentConfig) (tc_dir : String) (env : CaseDir) :
    List Event × Except CustomException Verdict :=
  match get_input_strategy cfg tc_dir env with
  | Except.error e => ([], Except.error e)
  | Except.ok ik =>
    match get_check_solution_strategy cfg tc_dir env with
    | Except.error e => ([], Except.error e)
    | Except.ok ck =>
      let run := check_tc ik ck tc_dir env
      (run.1, Except.ok run.2)

/-- The `for directory in os.listdir(...)` loop of `evaluate_submission`:
judge each discovered directory in enumeration order, appending
`(directory, verdict)`; a raised exception aborts the loop (and hence the
run) immediately, keeping the events spawned so far but producing no
verdict list. -/
def evaluate_submission.loop (cfg : ArgumentConfig) :
    List (String × CaseDir) → List Event × Except CustomException (List (String × Verdict))
  | [] => ([], Except.ok [])
  | (tc_dir, env) :: rest =>
    match judge_case cfg tc_dir env with
    | (evs, Except.error e) => (evs, Except.error e)
    | (evs, Except.ok v) =>
      match evaluate_submission.loop cfg rest with
      | (evs2, Except.error e) => (evs ++ evs2, Except.error e)
      | (evs2, Except.ok l) => (evs ++ evs2, Except.ok ((tc_dir, v) :: l))

/-- `CppCompilingStrategy.get_compile_command`. -/
def CppCompilingStrategy.get_compile_command
    (filename_without_extension filename_with_extension : String) : String :=
  "g++ -std=c++17 -Wshadow -Wall -o " ++ filename_without_extension ++ " "
    ++ filename_with_extension ++ " -O2 -Wno-unused-result"

/-- `JavaCompilingStrategy.get_compile_command`. -/
def JavaCompilingStrategy.get_compile_command
    (filename_with_extension : String) : String :=
  "javac " ++ filename_with_extension

/-- Virtual dispatch of `get_compile_command` over the compiling
strategy. -/
def CompilingStrategy.get_compile_command (k : CompilingStrategyKind)
    (filename_without_extension filename_with_extension : String) : String :=
  match k with
  | CompilingStrategyKind.cpp =>
    CppCompilingStrategy.get_compile_command filename_without_extension filename_with_extension
  | CompilingStrategyKind.java =>
    JavaCompilingStrategy.get_compile_command filename_with_extension

/-- `evaluate_submission`: compute the compile command, compile the
submission exactly once via one subprocess (its exit status is never
inspected), then judge every discovered test-case directory in order. The
result pairs the full spawn trace with either the ordered verdict list
(printed by `print_verdict` on success) or the exception that aborted the
run (in which case nothing is printed). -/
def evaluate_submission (cfg : ArgumentConfig) (k : CompilingStrategyKind)
    (filename_without_extension filename_with_extension : String)
    (dirs : List (String × CaseDir)) :
    List Event × Except CustomException (List (String × Verdict)) :=
  let compile_command :=
    CompilingStrategy.get_compile_command k filename_without_extension filename_with_extension
  let looped := evaluate_submission.loop cfg dirs
  (Event.compileProc compile_command :: looped.1, looped.2)

/-- The filesystem locations touched while judging one test case in the
staging (manual) delivery mode. A file's content is its list of lines;
`none` means the path does not exist. `tc_` fields live in the test-case
directory, `cwd_` fields in the shared working directory: the staged copy
of the input fixture under `input_filename`, and the ephemeral captured
output `output.user.out`. -/
structure FSState where
  tc_input : Option (List String)
  tc_expected : Option (List String)
  tc_user_output : Option (List String)
  cwd_input : Option (List String)
  cwd_user_output : Option (List String)
  deriving DecidableEq, Repr

/-- `ManualInputStrategy.__init__` as a state transition: the inherited
`InputStrategy.__init__` raises `TCNotFound` when the input fixture is
absent; otherwise the fixture is renamed (moved) into the working
directory and the captured-output file is created empty there. -/
def ManualInputStrategy.init (tc_dir : String) (fs : FSState) :
    Except CustomException FSState :=
  match fs.tc_input with
  | none => Except.error (CustomException.TCNotFound tc_dir)
  | some content =>
    Except.ok { fs with
      tc_input := none
      cwd_input := some content
      cwd_user_output := some [] }

/-- `ManualInputStrategy.execute_strategy`: spawn the submission with
stdout bound to the working-directory captured-output file, wait for it
to exit (the wait returns whatever the child's termination status is,
normal or abnormal, so `exit_code` is arbitrary and unused), then
`__cleanup`: rename the staged fixture back to its original path and move
the captured output into the test-case directory. -/
def ManualInputStrategy.execute_strategy (exit_code : Int) (child_output : List String)
    (fs : FSState) : FSState :=
  let ran := { fs with cwd_user_output := some child_output }
  let _ := exit_code
  { ran with
    tc_input := ran.cwd_input
    cwd_input := none
    tc_user_output := ran.cwd_user_output
    cwd_user_output := none }

/-- `CheckSolutionStrategy.__init__` against the filesystem state: raises
`TCNotFound` when the expected-output fixture is absent. -/
def CheckSolutionStrategy.init_fs (tc_dir : String) (fs : FSState) :
    Except CustomException Unit :=
  if fs.tc_expected.isSome then Except.ok ()
  else Except.error (CustomException.TCNotFound tc_dir)

/-- One iteration of `evaluate_submission`'s loop in manual delivery and
line-compare verification mode, tracking the filesystem: construct the
input strategy (which stages the fixture), construct the verification
strategy (which may raise `TCNotFound` — Python evaluates the arguments of
`check_tc` left to right, so this happens after staging, and the raise
skips every later step including restoration), then execute and judge;
judging ends with `cleanup`, which deletes the captured-output file. -/
def check_tc_manual_line (tc_dir : String) (exit_code : Int) (child_output : List String)
    (fs : FSState) : FSState × Except CustomException Verdict :=
  match ManualInputStrategy.init tc_dir fs with
  | Except.error e => (fs, Except.error e)
  | Except.ok staged =>
    match CheckSolutionStrategy.init_fs tc_dir staged with
    | Except.error e => (staged, Except.error e)
    | Except.ok _ =>
      let done := ManualInputStrategy.execute_strategy exit_code child_output staged
      let verdict := LineCompareCheckStrategy.check_output
        (done.tc_expected.getD []) (done.tc_user_output.getD [])
      ({ done with tc_user_output := none }, Except.ok verdict)

/-- Python `str.find` for a single character: index of the first
occurrence, `none` standing for the sentinel -1. -/
def pyfind (target : Char) : List Char → Option Nat
  | [] => none
  | c :: rest =>
    if c = target then some 0 else (pyfind target rest).map (fun i => i + 1)

/-- `check_valid_file`: split the submission filename at the FIRST dot.
No dot raises `InvalidSubmissionFile "Extension not included"`; a leading
dot raises `InvalidSubmissionFile "File name not found"`; a missing file
raises `SubmissionFileNotFound`; otherwise return the stem before the
first dot and the extension from the first dot to the end. -/
def check_valid_file (filename : List Char) (file_exists : Bool) :
    Except CustomException (List Char × List Char) :=
  match pyfind '.' filename with
  | none => Except.error (CustomException.InvalidSubmissionFile "Extension not included")
  | some idx =>
    if idx = 0 then Except.error (CustomException.InvalidSubmissionFile "File name not found")
    else if file_exists then Except.ok (filename.take idx, filename.drop idx)
    else Except.error (CustomException.SubmissionFileNotFound (String.mk filename))

/-- `get_compiling_strategy`: the factory keyed by the computed extension;
only ".cpp" and ".java" are supported, anything else raises
`InvalidSubmissionFile "Extension is not supported"`. -/
def get_compiling_strategy (filename_without_extension extension : List Char) :
    Except CustomException CompilingStrategyKind :=
  let _ := filename_without_extension
  if extension = ".cpp".data then Except.ok CompilingStrategyKind.cpp
  else if extension = ".java".data then Except.ok CompilingStrategyKind.java
  else Except.error (CustomException.InvalidSubmissionFile "Extension is not supported")

theorem getD_take_of_lt (u : List String) : ∀ (n i : Nat), i < n →
    (u.take n).getD i "" = u.getD i "" := by
  induction u with
  | nil =>
    intro n i _
    simp
  | cons x r ih =>
    intro n i hi
    cases n with
    | zero => exact absurd hi (Nat.not_lt_zero i)
    | succ m =>
      cases i with
      | zero => rfl
      | succ j =>
        have hj : j < m := Nat.lt_of_succ_lt_succ hi
        simpa using ih m j hj

theorem check_output_congr_of_getD (exp : List String) : ∀ (u1 u2 : List String),
    (∀ i, i < exp.length → u1.getD i "" = u2.getD i "") →
    LineCompareCheckStrategy.check_output exp u1
      = LineCompareCheckStrategy.check_output exp u2 := by
  induction exp with
  | nil =>
    intro u1 u2 _
    rfl
  | cons e es ih =>
    intro u1 u2 hagree
    unfold LineCompareCheckStrategy.check_output
    have hhead : u1.headD "" = u2.headD "" := by
      rw [headD_empty_getD_zero, headD_empty_getD_zero]
      exact hagree 0 (Nat.succ_pos _)
    rw [hhead]
    by_cases h : rstripCRLF (u2.headD "") = rstripCRLF e
    · rw [if_pos h, if_pos h]
      apply ih
      intro j hj
      rw [tail_getD_empty, tail_getD_empty]
      exact hagree (j + 1) (Nat.succ_lt_succ hj)
    · rw [if_neg h, if_neg h]

/-- Claim C1 counterexample. The claim says a captured output that ends
before the expected output does always yields WrongAnswer. Here the
expected file has two lines ("3" and a blank line) and the captured file
has one line, so the captured output ends first, yet the verdict is
Accepted: the `readline()` past end of file returns `""`, which equals
the blank expected line after terminator stripping. -/
theorem C1_counterexample_blank_suffix_accepted :
    LineCompareCheckStrategy.check_output ["3\n", "\n"] ["3"] = Verdict.AC ∧
      List.length ["3"] < List.length ["3\n", "\n"] := by
  constructor
  · rfl
  · decide

/-- Claim C1 (amended): the line-compare verdict is Accepted iff at every
position of the expected-output file the terminator-stripped expected line
equals the terminator-stripped captured line read at that position, where
reading past the end of the captured output yields the empty string; the
first position where they differ yields WrongAnswer. (The amendment is
forced by the counterexample: a premature end of captured output is a
mismatch only at positions whose expected line is non-blank after
stripping.) -/
theorem C1_amended_line_compare_accepted_iff (exp user : List String) :
    LineCompareCheckStrategy.check_output exp user = Verdict.AC ↔
      ∀ i, i < exp.length →
        rstripCRLF (user.getD i "") = rstripCRLF (exp.getD i "") :=
  check_output_eq_AC_iff exp user

/-- Witness for C1 (amended): spec Scenario A with a terminator variant,
expected lines "3" and "5\r\n" against captured lines "3" and "5". -/
theorem C1_amended_witness :
    LineCompareCheckStrategy.check_output ["3\n", "5\r\n"] ["3", "5"] = Verdict.AC :=
  (C1_amended_line_compare_accepted_iff ["3\n", "5\r\n"] ["3", "5"]).mpr (by decide)

/-- Claim C8: the line-compare verdict depends only on the first n
captured lines, n being the number of expected lines: (1) two captured
outputs whose reads agree at every position below n get the same verdict;
(2) truncating the captured output to n lines never changes the verdict
(lines beyond position n - 1 are never inspected); (3) appending extra
trailing lines to a captured output that already covers all expected
positions cannot turn Accepted into WrongAnswer. -/
theorem C8_verdict_depends_on_first_n_lines :
    (∀ (exp u1 u2 : List String),
      (∀ i, i < exp.length → u1.getD i "" = u2.getD i "") →
      LineCompareCheckStrategy.check_output exp u1
        = LineCompareCheckStrategy.check_output exp u2) ∧
    (∀ (exp u : List String),
      LineCompareCheckStrategy.check_output exp u
        = LineCompareCheckStrategy.check_output exp (u.take exp.length)) ∧
    (∀ (exp u extra : List String), exp.length ≤ u.length →
      LineCompareCheckStrategy.check_output exp u = Verdict.AC →
      LineCompareCheckStrategy.check_output exp (u ++ extra) = Verdict.AC) := by
  refine ⟨check_output_congr_of_getD, ?_, ?_⟩
  · intro exp u
    apply check_output_congr_of_getD
    intro i hi
    exact (getD_take_of_lt u exp.length i hi).symm
  · intro exp u extra hlen hAC
    have htake : (u ++ extra).take exp.length = u.take exp.length :=
      List.take_append_of_le_length hlen
    calc LineCompareCheckStrategy.check_output exp (u ++ extra)
        = LineCompareCheckStrategy.check_output exp ((u ++ extra).take exp.length) := by
          apply check_output_congr_of_getD
          intro i hi
          exact (getD_take_of_lt (u ++ extra) exp.length i hi).symm
      _ = LineCompareCheckStrategy.check_output exp (u.take exp.length) := by rw [htake]
      _ = LineCompareCheckStrategy.check_output exp u := by
          apply check_output_congr_of_getD
          intro i hi
          exact getD_take_of_lt u exp.length i hi
      _ = Verdict.AC := hAC

/-- Witness for C8: two captured outputs sharing their first two lines but
differing in a third, trailing line get the same verdict on a two-line
expected file. -/
theorem C8_witness :
    LineCompareCheckStrategy.check_output ["3\n", "5\n"] ["3", "5", "junk"]
      = LineCompareCheckStrategy.check_output ["3\n", "5\n"] ["3", "5", "other"] :=
  C8_verdict_depends_on_first_n_lines.1 ["3\n", "5\n"] ["3", "5", "junk"]
    ["3", "5", "other"] (by decide)

/-- Claim C9: once the captured output is exhausted, every further
`readline()` yields the empty string after terminator stripping; hence a
captured output that is a stripped-equal prefix of the expected output is
Accepted whenever every remaining expected line strips to the empty
string, even though the captured output ended before the expected output
did. -/
theorem C9_exhausted_reads_empty_blank_suffix_accepted :
    (∀ (u : List String) (i : Nat), u.length ≤ i →
      rstripCRLF (u.getD i "") = "") ∧
    (∀ (exp u : List String), u.length < exp.length →
      (∀ i, i < u.length →
        rstripCRLF (u.getD i "") = rstripCRLF (exp.getD i "")) →
      (∀ i, u.length ≤ i → i < exp.length → rstripCRLF (exp.getD i "") = "") →
      LineCompareCheckStrategy.check_output exp u = Verdict.AC) := by
  constructor
  · intro u i h
    rw [List.getD_eq_default u "" h]
    rfl
  · intro exp u _ hmatch hblank
    apply (check_output_eq_AC_iff exp u).mpr
    intro i hi
    by_cases hcase : i < u.length
    · exact hmatch i hcase
    · have hle : u.length ≤ i := Nat.le_of_not_lt hcase
      rw [List.getD_eq_default u "" hle, hblank i hle hi]
      rfl

/-- Witness for C9: expected lines "3", a blank line and a "\r\n" line
against the single captured line "3": Accepted despite the premature end
of the captured output. -/
theorem C9_witness :
    LineCompareCheckStrategy.check_output ["3\n", "\n", "\r\n"] ["3"] = Verdict.AC :=
  C9_exhausted_reads_empty_blank_suffix_accepted.2 ["3\n", "\n", "\r\n"] ["3"]
    (by decide) (by decide) (by decide)

theorem judge_case_no_compile (cfg : ArgumentConfig) (tc_dir : String) (env : CaseDir)
    (c : String) : Event.compileProc c ∉ (judge_case cfg tc_dir env).1 := by
  unfold judge_case
  cases hik : get_input_strategy cfg tc_dir env with
  | error e => simp
  | ok ik =>
    cases hck : get_check_solution_strategy cfg tc_dir env with
    | error e => simp
    | ok ck =>
      cases ik <;> cases ck <;>
        simp [check_tc, CheckSolutionStrategy.check_output]

theorem loop_no_compile (cfg : ArgumentConfig) :
    ∀ (dirs : List (String × CaseDir)) (c : String),
    Event.compileProc c ∉ (evaluate_submission.loop cfg dirs).1 := by
  intro dirs
  induction dirs with
  | nil =>
    intro c
    simp [evaluate_submission.loop]
  | cons hd tl ih =>
    intro c
    obtain ⟨tc_dir, env⟩ := hd
    have h1 := judge_case_no_compile cfg tc_dir env c
    have h2 := ih c
    unfold evaluate_submission.loop
    cases hj : judge_case cfg tc_dir env with
    | mk evs r =>
      rw [hj] at h1
      cases r with
      | error e => exact h1
      | ok v =>
        cases hl : evaluate_submission.loop cfg tl with
        | mk evs2 r2 =>
          rw [hl] at h2
          cases r2 with
          | error e =>
            simp only [List.mem_append]
            exact fun hmem => hmem.elim h1 h2
          | ok l =>
            simp only [List.mem_append]
            exact fun hmem => hmem.elim h1 h2

theorem loop_ok_map_fst (cfg : ArgumentConfig) :
    ∀ (dirs : List (String × CaseDir)) (l : List (String × Verdict)),
    (evaluate_submission.loop cfg dirs).2 = Except.ok l →
    l.map Prod.fst = dirs.map Prod.fst := by
  intro dirs
  induction dirs with
  | nil =>
    intro l hl
    simp [evaluate_submission.loop] at hl
    simp [← hl]
  | cons hd tl ih =>
    intro l hl
    obtain ⟨tc_dir, env⟩ := hd
    unfold evaluate_submission.loop at hl
    cases hj : judge_case cfg tc_dir env with
    | mk evs r =>
      rw [hj] at hl
      cases r with
      | error e => simp at hl
      | ok v =>
        cases hrec : evaluate_submission.loop cfg tl with
        | mk evs2 r2 =>
          rw [hrec] at hl
          cases r2 with
          | error e => simp at hl
          | ok l2 =>
            simp only at hl
            have hl2 : l = (tc_dir, v) :: l2 := by
              injection hl with h
              exact h.symm
            have := ih l2 (by rw [hrec])
            rw [hl2]
            simp [this]

/-- Claim C2: for every run of the evaluation engine, the compile command
is the head of the spawn trace (invoked exactly once, before any test-case
execution, since the loop spawns no compile processes), and whenever the
run completes, the ordered verdict list has exactly one (caseId, verdict)
entry per discovered test-case directory, in enumeration order. -/
theorem C2_compile_once_and_ordered_verdicts (cfg : ArgumentConfig)
    (k : CompilingStrategyKind) (f fe : String) (dirs : List (String × CaseDir)) :
    (evaluate_submission cfg k f fe dirs).1
        = Event.compileProc (CompilingStrategy.get_compile_command k f fe)
          :: (evaluate_submission.loop cfg dirs).1 ∧
    (∀ c, Event.compileProc c ∉ (evaluate_submission.loop cfg dirs).1) ∧
    (∀ l, (evaluate_submission cfg k f fe dirs).2 = Except.ok l →
      l.map Prod.fst = dirs.map Prod.fst) := by
  refine ⟨rfl, loop_no_compile cfg dirs, ?_⟩
  intro l hl
  exact loop_ok_map_fst cfg dirs l hl

/-- Witness for C2: a two-case run under default configuration; the run
completes and the verdict list is keyed "a" then "b" in enumeration
order. -/
theorem C2_witness :
    (evaluate_submission {} CompilingStrategyKind.cpp "sol" "sol.cpp"
        [("a", { has_input := true, has_expected := true, expected_lines := ["1\n"],
                 user_lines := ["1"], checker_exit_code := 0 }),
         ("b", { has_input := true, has_expected := true, expected_lines := ["2\n"],
                 user_lines := ["3"], checker_exit_code := 0 })]).2
      = Except.ok [("a", Verdict.AC), ("b", Verdict.WA)] ∧
    List.map Prod.fst [("a", Verdict.AC), ("b", Verdict.WA)] = ["a", "b"] := by
  constructor
  · rfl
  · exact (C2_compile_once_and_ordered_verdicts {} CompilingStrategyKind.cpp "sol" "sol.cpp"
      [("a", { has_input := true, has_expected := true, expected_lines := ["1\n"],
               user_lines := ["1"], checker_exit_code := 0 }),
       ("b", { has_input := true, has_expected := true, expected_lines := ["2\n"],
               user_lines := ["3"], checker_exit_code := 0 })]).2.2
      [("a", Verdict.AC), ("b", Verdict.WA)] (by rfl)

/-- Claim C3: under the external-checker strategy, the verdict of a case
is computed from the checker's exit code alone — Accepted exactly when it
is 0, WrongAnswer for every other exit code; the right-hand side mentions
neither the captured nor the expected file content, so the verdict is
independent of both. -/
theorem C3_checker_verdict_from_exit_code (cfg : ArgumentConfig) (tc_dir : String)
    (env : CaseDir) (hck : cfg.check_strat = "checker")
    (his : cfg.input_strat = "automatic" ∨ cfg.input_strat = "manual")
    (hin : env.has_input = true) (hexp : env.has_expected = true) :
    (judge_case cfg tc_dir env).2
      = Except.ok (if env.checker_exit_code = 0 then Verdict.AC else Verdict.WA) := by
  rcases his with h | h <;>
    simp [judge_case, get_input_strategy, get_check_solution_strategy,
      InputStrategy.init_check, CheckSolutionStrategy.init_check, h, hck, hin, hexp,
      Except.map, check_tc, CheckSolutionStrategy.check_output,
      CheckerCompareCheckStrategy.check_output]

/-- Witness for C3: a checker exiting with code 2 yields WrongAnswer. -/
theorem C3_witness :
    (judge_case { check_strat := "checker" } "tc1"
        { has_input := true, has_expected := true, expected_lines := ["1\n"],
          user_lines := ["1"], checker_exit_code := 2 }).2
      = Except.ok Verdict.WA := by
  have h := C3_checker_verdict_from_exit_code { check_strat := "checker" } "tc1"
    { has_input := true, has_expected := true, expected_lines := ["1\n"],
      user_lines := ["1"], checker_exit_code := 2 }
    rfl (Or.inl rfl) rfl rfl
  simpa using h

/-- Claim C4 counterexample. The claim says the fixture is restored and
no staged or temporary files remain after EVERY staging-based delivery
run, including abnormal termination paths. Start from a test-case
directory holding an input fixture but no expected-output fixture, in
manual delivery mode: `ManualInputStrategy.__init__` stages the fixture
into the working directory and creates the empty captured-output file
there, then `CheckSolutionStrategy.__init__` raises `TCNotFound`. There is
no try/finally around the staging, so the exception skips `__cleanup`: the
run ends with the fixture absent from its original path and both the
staged fixture and the temporary captured-output file left in the working
directory. -/
theorem C4_counterexample_staged_fixture_leak :
    check_tc_manual_line "tc1" 0 ["3\n"]
        { tc_input := some ["1 2\n"], tc_expected := none, tc_user_output := none,
          cwd_input := none, cwd_user_output := none }
      = ({ tc_input := none, tc_expected := none, tc_user_output := none,
           cwd_input := some ["1 2\n"], cwd_user_output := some [] },
         Except.error (CustomException.TCNotFound "tc1")) ∧
    (check_tc_manual_line "tc1" 0 ["3\n"]
        { tc_input := some ["1 2\n"], tc_expected := none, tc_user_output := none,
          cwd_input := none, cwd_user_output := none }).1.tc_input = none ∧
    (check_tc_manual_line "tc1" 0 ["3\n"]
        { tc_input := some ["1 2\n"], tc_expected := none, tc_user_output := none,
          cwd_input := none, cwd_user_output := none }).1.cwd_input ≠ none := by
  refine ⟨rfl, rfl, ?_⟩
  intro h
  simp [check_tc_manual_line, ManualInputStrategy.init,
    CheckSolutionStrategy.init_fs] at h

/-- Claim C4 (amended): on every staging-based delivery run that reaches
the child-execution step, for every child termination status (normal or
abnormal — `wait()` returns either way and the straight-line code then
restores), the input fixture is back at its original path with identical
content, the captured output has been moved into the test-case directory,
and the working directory holds no staged or temporary file; the
expected-output fixture is untouched. (The amendment is forced by the
counterexample: when an exception is raised between staging and
execution — e.g. a missing expected-output fixture — restoration is
skipped and the staged files leak.) -/
theorem C4_amended_manual_roundtrip (tc_dir : String) (fs : FSState)
    (content : List String) (exit_code : Int) (child_output : List String)
    (hin : fs.tc_input = some content) :
    ∃ staged, ManualInputStrategy.init tc_dir fs = Except.ok staged ∧
      (ManualInputStrategy.execute_strategy exit_code child_output staged).tc_input
          = some content ∧
      (ManualInputStrategy.execute_strategy exit_code child_output staged).tc_user_output
          = some child_output ∧
      (ManualInputStrategy.execute_strategy exit_code child_output staged).cwd_input
          = none ∧
      (ManualInputStrategy.execute_strategy exit_code child_output staged).cwd_user_output
          = none ∧
      (ManualInputStrategy.execute_strategy exit_code child_output staged).tc_expected
          = fs.tc_expected := by
  have hstaged : ManualInputStrategy.init tc_dir fs
      = Except.ok { fs with tc_input := none, cwd_input := some content, cwd_user_output := some [] } := by
    unfold ManualInputStrategy.init
    rw [hin]
  exact ⟨_, hstaged, by simp [ManualInputStrategy.execute_strategy]⟩

/-- Witness for C4 (amended): a concrete delivery run with an abnormal
child exit status -9 still restores the fixture and leaves the working
directory clean. -/
theorem C4_amended_witness :
    ∃ staged,
      ManualInputStrategy.init "tc1"
          { tc_input := some ["1 2\n"], tc_expected := some ["3\n"],
            tc_user_output := none, cwd_input := none, cwd_user_output := none }
        = Except.ok staged ∧
      (ManualInputStrategy.execute_strategy (-9) ["3\n"] staged).tc_input
          = some ["1 2\n"] ∧
      (ManualInputStrategy.execute_strategy (-9) ["3\n"] staged).tc_user_output
          = some ["3\n"] ∧
      (ManualInputStrategy.execute_strategy (-9) ["3\n"] staged).cwd_input = none ∧
      (ManualInputStrategy.execute_strategy (-9) ["3\n"] staged).cwd_user_output = none ∧
      (ManualInputStrategy.execute_strategy (-9) ["3\n"] staged).tc_expected
          = some ["3\n"] :=
  C4_amended_manual_roundtrip "tc1"
    { tc_input := some ["1 2\n"], tc_expected := some ["3\n"],
      tc_user_output := none, cwd_input := none, cwd_user_output := none }
    ["1 2\n"] (-9) ["3\n"] rfl

/-- Claim C5, documenting the code bug. The claim (and the code's own
`setup_strategy`, which exists precisely to raise `CheckerNotFound`) says
a missing checker file fails the run with `CheckerNotFound` before any
checker process is spawned. But `CheckerCompareCheckStrategy.check_output`
never calls `setup_strategy` — the only call site of that check — so on a
case with both fixtures present the engine spawns the checker process
anyway (second event below) and, the python interpreter exiting nonzero
because the checker script is absent, reports WrongAnswer instead of
failing. Checker existence is not even an input of `judge_case`: no step
of the executed path consults it. -/
theorem C5_checker_missing_spawns_and_returns_WA :
    CheckerCompareCheckStrategy.setup_strategy false
      = Except.error CustomException.CheckerNotFound ∧
    judge_case { check_strat := "checker" } "tc1"
        { has_input := true, has_expected := true, expected_lines := ["1\n"],
          user_lines := ["1"], checker_exit_code := 2 }
      = ([Event.executeProc "tc1", Event.checkerProc "tc1"], Except.ok Verdict.WA) := by
  exact ⟨rfl, rfl⟩

theorem loop_snd (cfg : ArgumentConfig) (tc_dir : String) (env : CaseDir)
    (rest : List (String × CaseDir)) :
    (evaluate_submission.loop cfg ((tc_dir, env) :: rest)).2
      = (match (judge_case cfg tc_dir env).2 with
        | Except.error e => Except.error e
        | Except.ok v =>
          match (evaluate_submission.loop cfg rest).2 with
          | Except.error e => Except.error e
          | Except.ok l => Except.ok ((tc_dir, v) :: l)) := by
  cases hj : judge_case cfg tc_dir env with
  | mk evs r =>
    cases hl : evaluate_submission.loop cfg rest with
    | mk evs2 r2 =>
      cases r <;> cases r2 <;> simp [evaluate_submission.loop, hj, hl]

theorem loop_error_propagates (cfg : ArgumentConfig) (tc_dir : String) (env : CaseDir)
    (err : CustomException)
    (hj : (judge_case cfg tc_dir env).2 = Except.error err) :
    ∀ (pre : List (String × CaseDir)) (suf : List (String × CaseDir))
      (l0 : List (String × Verdict)),
    (evaluate_submission.loop cfg pre).2 = Except.ok l0 →
    (evaluate_submission.loop cfg (pre ++ (tc_dir, env) :: suf)).2 = Except.error err := by
  intro pre
  induction pre with
  | nil =>
    intro suf l0 _
    rw [List.nil_append, loop_snd, hj]
  | cons hd pre ih =>
    intro suf l0 hpre
    obtain ⟨d0, e0⟩ := hd
    rw [List.cons_append, loop_snd]
    rw [loop_snd] at hpre
    cases hj0 : (judge_case cfg d0 e0).2 with
    | error e =>
      rw [hj0] at hpre
      simp at hpre
    | ok v =>
      rw [hj0] at hpre
      cases hrec : (evaluate_submission.loop cfg pre).2 with
      | error e =>
        rw [hrec] at hpre
        simp at hpre
      | ok l1 =>
        have hstep := ih suf l1 hrec
        rw [hstep]

/-- Claim C6: a discovered test-case directory whose expected-output
fixture is absent makes `CheckSolutionStrategy.__init__` raise
`TCNotFound` with an empty per-case spawn trace (no subprocess is spawned
for that case), and, whenever every earlier directory judged fine, the
whole run aborts with that exception and produces no verdict list (so no
partial report is printed). -/
theorem C6_missing_expected_aborts_run (cfg : ArgumentConfig) (tc_dir : String)
    (env : CaseDir)
    (his : cfg.input_strat = "automatic" ∨ cfg.input_strat = "manual")
    (hck : cfg.check_strat = "line" ∨ cfg.check_strat = "checker")
    (hin : env.has_input = true) (hexp : env.has_expected = false) :
    judge_case cfg tc_dir env = ([], Except.error (CustomException.TCNotFound tc_dir)) ∧
    (∀ (pre suf : List (String × CaseDir)) (l0 : List (String × Verdict))
      (k : CompilingStrategyKind) (f fe : String),
      (evaluate_submission.loop cfg pre).2 = Except.ok l0 →
      (evaluate_submission cfg k f fe (pre ++ (tc_dir, env) :: suf)).2
        = Except.error (CustomException.TCNotFound tc_dir)) := by
  have hjudge : judge_case cfg tc_dir env
      = ([], Except.error (CustomException.TCNotFound tc_dir)) := by
    rcases his with h | h <;> rcases hck with h2 | h2 <;>
      simp [judge_case, get_input_strategy, get_check_solution_strategy,
        InputStrategy.init_check, CheckSolutionStrategy.init_check, h, h2, hin, hexp,
        Except.map]
  refine ⟨hjudge, ?_⟩
  intro pre suf l0 k f fe hpre
  show (evaluate_submission.loop cfg (pre ++ (tc_dir, env) :: suf)).2
      = Except.error (CustomException.TCNotFound tc_dir)
  exact loop_error_propagates cfg tc_dir env (CustomException.TCNotFound tc_dir)
    (by rw [hjudge]) pre suf l0 hpre

/-- Witness for C6: with one healthy preceding case "a", a case "b"
missing its expected-output fixture aborts the whole run with
`TCNotFound "b"` and an empty trace for "b". -/
theorem C6_witness :
    judge_case {} "b"
        { has_input := true, has_expected := false, expected_lines := [],
          user_lines := [], checker_exit_code := 0 }
      = ([], Except.error (CustomException.TCNotFound "b")) ∧
    (evaluate_submission {} CompilingStrategyKind.cpp "sol" "sol.cpp"
        ([("a", { has_input := true, has_expected := true, expected_lines := ["1\n"],
                  user_lines := ["1"], checker_exit_code := 0 })] ++
          ("b", { has_input := true, has_expected := false, expected_lines := [],
                  user_lines := [], checker_exit_code := 0 }) :: [])).2
      = Except.error (CustomException.TCNotFound "b") := by
  have h := C6_missing_expected_aborts_run {} "b"
    { has_input := true, has_expected := false, expected_lines := [],
      user_lines := [], checker_exit_code := 0 }
    (Or.inl rfl) (Or.inl rfl) rfl rfl
  exact ⟨h.1, h.2
    [("a", { has_input := true, has_expected := true, expected_lines := ["1\n"],
             user_lines := ["1"], checker_exit_code := 0 })] []
    [("a", Verdict.AC)] CompilingStrategyKind.cpp "sol" "sol.cpp" (by rfl)⟩

/-- Claim C7 counterexample. The claim says a missing input fixture makes
the input-delivery constructor fail with `FixtureNotFound`; the code
instead raises `TCNotFound` (the script defines no `FixtureNotFound`
exception at all — the constructor appears only in the specification's
wording), and the two are distinct. -/
theorem C7_counterexample_TCNotFound_raised :
    get_input_strategy {} "tc1"
        { has_input := false, has_expected := true, expected_lines := [],
          user_lines := [], checker_exit_code := 0 }
      = Except.error (CustomException.TCNotFound "tc1") ∧
    (Except.error (CustomException.TCNotFound "tc1") :
        Except CustomException InputStrategyKind)
      ≠ Except.error (CustomException.FixtureNotFound "tc1") := by
  refine ⟨rfl, ?_⟩
  intro h
  injection h with h2
  simp at h2

/-- Claim C7 (amended): for every test-case directory whose input fixture
file is absent, constructing the input-delivery strategy fails with
`TCNotFound` — the exception the code uses for every missing fixture —
and the case is aborted with an empty spawn trace, so the submission is
never executed for that case. -/
theorem C7_amended_missing_input_TCNotFound (cfg : ArgumentConfig) (tc_dir : String)
    (env : CaseDir)
    (his : cfg.input_strat = "automatic" ∨ cfg.input_strat = "manual")
    (hin : env.has_input = false) :
    get_input_strategy cfg tc_dir env
        = Except.error (CustomException.TCNotFound tc_dir) ∧
    judge_case cfg tc_dir env = ([], Except.error (CustomException.TCNotFound tc_dir)) := by
  rcases his with h | h <;>
    simp [judge_case, get_input_strategy, InputStrategy.init_check, h, hin, Except.map]

/-- Witness for C7 (amended): a concrete manual-mode case with no input
fixture fails with `TCNotFound` and spawns nothing. -/
theorem C7_amended_witness :
    get_input_strategy { input_strat := "manual" } "tc9"
        { has_input := false, has_expected := true, expected_lines := [],
          user_lines := [], checker_exit_code := 0 }
      = Except.error (CustomException.TCNotFound "tc9") ∧
    judge_case { input_strat := "manual" } "tc9"
        { has_input := false, has_expected := true, expected_lines := [],
          user_lines := [], checker_exit_code := 0 }
      = ([], Except.error (CustomException.TCNotFound "tc9")) :=
  C7_amended_missing_input_TCNotFound { input_strat := "manual" } "tc9"
    { has_input := false, has_expected := true, expected_lines := [],
      user_lines := [], checker_exit_code := 0 }
    (Or.inr rfl) rfl

theorem pyfind_eq_none_of_not_mem (target : Char) :
    ∀ (l : List Char), target ∉ l → pyfind target l = none := by
  intro l
  induction l with
  | nil =>
    intro _
    rfl
  | cons c r ih =>
    intro h
    have hc : ¬ c = target := fun hc => h (by rw [hc]; exact List.mem_cons_self target r)
    have hr : target ∉ r := fun hr => h (List.mem_cons_of_mem c hr)
    unfold pyfind
    rw [if_neg hc, ih hr]
    rfl

theorem pyfind_append_first (target : Char) :
    ∀ (stem rest : List Char), target ∉ stem →
    pyfind target (stem ++ target :: rest) = some stem.length := by
  intro stem
  induction stem with
  | nil =>
    intro rest _
    show pyfind target (target :: rest) = some 0
    unfold pyfind
    rw [if_pos rfl]
  | cons c p ih =>
    intro rest h
    have hc : ¬ c = target := fun hc => h (by rw [hc]; exact List.mem_cons_self target p)
    have hp : target ∉ p := fun hp => h (List.mem_cons_of_mem c hp)
    show pyfind target (c :: (p ++ target :: rest)) = some (p.length + 1)
    unfold pyfind
    rw [if_neg hc, ih rest hp]
    rfl

/-- Claim C10: submission filename validation splits at the FIRST dot.
(1) A name with no dot at all is rejected before anything is spawned;
(2) a name beginning with a dot is rejected likewise; (3) for every
filename whose stem contains a further dot — i.e. the part after the
first dot contains another dot, as in "sol.v2.cpp" — the computed
extension runs from the first dot to the end of the name, and
compiling-strategy resolution rejects it as an unsupported kind (the
extension cannot equal ".cpp" or ".java", both of which are dot-free
after their leading dot), even when the name's final suffix is
supported. -/
theorem C10_split_at_first_dot :
    (∀ (name : List Char) (file_exists : Bool), '.' ∉ name →
      check_valid_file name file_exists
        = Except.error (CustomException.InvalidSubmissionFile "Extension not included")) ∧
    (∀ (rest : List Char) (file_exists : Bool),
      check_valid_file ( '.' :: rest) file_exists
        = Except.error (CustomException.InvalidSubmissionFile "File name not found")) ∧
    (∀ (stem rest : List Char), stem ≠ [] → '.' ∉ stem → '.' ∈ rest →
      check_valid_file (stem ++ '.' :: rest) true = Except.ok (stem, '.' :: rest) ∧
      get_compiling_strategy stem ( '.' :: rest)
        = Except.error (CustomException.InvalidSubmissionFile "Extension is not supported")) := by
  refine ⟨?_, ?_, ?_⟩
  · intro name file_exists h
    unfold check_valid_file
    rw [pyfind_eq_none_of_not_mem '.' name h]
  · intro rest file_exists
    unfold check_valid_file
    have h0 : pyfind '.' ( '.' :: rest) = some 0 := by
      unfold pyfind
      rw [if_pos rfl]
    rw [h0]
    simp
  · intro stem rest hne hdotstem hdotrest
    have hlen : 0 < stem.length := List.length_pos.mpr hne
    have hfound := pyfind_append_first '.' stem rest hdotstem
    constructor
    · unfold check_valid_file
      rw [hfound]
      have hne0 : ¬ stem.length = 0 := Nat.pos_iff_ne_zero.mp hlen
      simp [hne0, List.take_left, List.drop_left]
    · have hcpp : ( '.' :: rest) ≠ ".cpp".data := by
        intro heq
        have heq2 : ( '.' :: rest) = ['.', 'c', 'p', 'p'] := heq
        have hrest : rest = ['c', 'p', 'p'] := by
          injection heq2
        rw [hrest] at hdotrest
        exact absurd hdotrest (by decide)
      have hjava : ( '.' :: rest) ≠ ".java".data := by
        intro heq
        have heq2 : ( '.' :: rest) = ['.', 'j', 'a', 'v', 'a'] := heq
        have hrest : rest = ['j', 'a', 'v', 'a'] := by
          injection heq2
        rw [hrest] at hdotrest
        exact absurd hdotrest (by decide)
      unfold get_compiling_strategy
      rw [if_neg hcpp, if_neg hjava]

/-- Witness for C10: the name "sol.v2.cpp" splits into stem "sol" and
extension ".v2.cpp", which the compiling-strategy factory rejects even
though the final ".cpp" suffix alone would be supported. -/
theorem C10_witness :
    check_valid_file ['s', 'o', 'l', '.', 'v', '2', '.', 'c', 'p', 'p'] true
      = Except.ok (['s', 'o', 'l'], ['.', 'v', '2', '.', 'c', 'p', 'p']) ∧
    get_compiling_strategy ['s', 'o', 'l'] ['.', 'v', '2', '.', 'c', 'p', 'p']
      = Except.error (CustomException.InvalidSubmissionFile "Extension is not supported") :=
  C10_split_at_first_dot.2.2 ['s', 'o', 'l'] ['v', '2', '.', 'c', 'p', 'p']
    (by decide) (by decide) (by decide)
